import Mathlib

/-!
Verification of the motion and calibration core of an ESP32 sunshade
controller (`src/main/main.c`).

The C code is shallowly embedded: machine integers become `Nat` / `Int`
(with an explicit `% 2 ^ 32` where a `uint32_t` cast matters), the
`float` position `pos_f` is modelled over `ℚ` (the concrete scenarios
used below only involve dyadic values such as `1.0` and `0.625` that
binary32 arithmetic represents exactly, so the rational model agrees
with the float code on them), FreeRTOS tasks become explicit state
passing, and HomeKit notifications are recorded in an output list.
A ghost field `ticks` counts movement-loop iterations; it is pure
instrumentation and influences nothing.
-/

namespace Sunshade

/-! ### Relay layer (`relay_write`, `motor_all_off`, `motor_drive_open`,
`motor_drive_close`, `main.c` lines 102-116)

Modelled at the granularity of single `relay_write` calls so that the
interlock can be checked at every instant, including between the two
writes inside one motor helper. -/

/-- State of the two relay outputs: `(open pin energized, close pin energized)`. -/
abbrev RelaySt := Bool × Bool

/-- One primitive `relay_write` call: write the open pin or the close pin. -/
inductive WriteEvt where
  | wOpen (b : Bool)
  | wClose (b : Bool)
deriving DecidableEq

/-- Effect of one primitive relay write on the relay pair. -/
def applyW (s : RelaySt) : WriteEvt → RelaySt
  | .wOpen b => (b, s.2)
  | .wClose b => (s.1, b)

/-- The three motor helpers of the source.  Every `relay_write` in the
program occurs inside one of them. -/
inductive MotorAct where
  | allOff
  | dOpen (b : Bool)
  | dClose (b : Bool)
deriving DecidableEq

/-- Primitive write sequence of each motor helper, in source order:
`motor_all_off` clears the open pin then the close pin (lines 105-108);
`motor_drive_open(on)` first clears the close pin when energizing
(lines 109-112), symmetrically for `motor_drive_close` (lines 113-116). -/
def writesOf : MotorAct → List WriteEvt
  | .allOff => [.wOpen false, .wClose false]
  | .dOpen b => (if b then [.wClose false] else []) ++ [.wOpen b]
  | .dClose b => (if b then [.wOpen false] else []) ++ [.wClose b]

/-- Concatenated primitive writes of a sequence of motor-helper calls. -/
def writesOfList : List MotorAct → List WriteEvt
  | [] => []
  | a :: l => writesOf a ++ writesOfList l

/-- Interlock predicate: the two outputs are not both energized. -/
def okB (s : RelaySt) : Bool := !(s.1 && s.2)

/-- `allOk s ws` holds when every instant along the write sequence `ws`
started from `s` — before, between and after primitive writes —
satisfies the interlock predicate. -/
def allOk : RelaySt → List WriteEvt → Bool
  | s, [] => okB s
  | s, w :: ws => okB s && allOk (applyW s w) ws

/-! ### Global state model (`main.c` lines 232-250, 405-412)

One record holds every process-wide variable the motion / calibration
core reads or writes, together with the persisted NVS record and the
list of HomeKit notifications emitted so far. -/

/-- NeoPixel status states (`pix_state_t`, lines 139-146). -/
inductive PixState where
  | idle
  | opening
  | closing
  | stopped
  | calibrating
  | wifiWait
deriving DecidableEq

/-- Calibration phases (`calib_state_t`, lines 405-409). -/
inductive CalibState where
  | idle
  | armed
  | running
deriving DecidableEq

/-- One `homekit_characteristic_notify` call, tagged by characteristic. -/
inductive Notif where
  | curPos (v : ℕ)
  | posState (v : ℕ)
  | tgtPos (v : ℕ)
  | holdPos (b : Bool)
  | recal (b : Bool)
deriving DecidableEq

/-- A `homekit_value_t`: the constructor is the `format` tag. -/
inductive HKValue where
  | b (v : Bool)
  | u8 (v : ℕ)
  | other
deriving DecidableEq

/-- Process-wide state of the controller. `posF` is `pos_f`,
`moveTask` is `move_task_handle` (carrying the task's target),
`nvsFullMs` is the persisted `full_ms` record, `notifs` logs emitted
notifications, and `ticks` is a ghost tick counter. -/
structure SysState where
  relayOpen : Bool
  relayClose : Bool
  posF : ℚ
  fullTravelMs : ℕ
  currentPosition : ℕ
  targetPosition : ℕ
  positionState : ℕ
  holdPosition : Bool
  recalibrateSwitch : Bool
  calibState : CalibState
  calibStartUs : ℤ
  moveTask : Option ℕ
  pixState : PixState
  nvsFullMs : Option ℕ
  notifs : List Notif
  ticks : ℕ
deriving DecidableEq

/-- Initial values of the globals (lines 232-250, 411-412; `pos_f = 0`,
`full_travel_ms = FULL_TRAVEL_MS_DEFAULT`, characteristics at their
declared initial values, calibration idle). -/
def initState : SysState where
  relayOpen := false
  relayClose := false
  posF := 0
  fullTravelMs := 18000
  currentPosition := 0
  targetPosition := 0
  positionState := 2
  holdPosition := false
  recalibrateSwitch := false
  calibState := CalibState.idle
  calibStartUs := 0
  moveTask := none
  pixState := PixState.wifiWait
  nvsFullMs := none
  notifs := []
  ticks := 0

/-- Record one notification. -/
def notify (n : Notif) (s : SysState) : SysState :=
  { s with notifs := s.notifs ++ [n] }

/-- `motor_all_off` (lines 105-108) on the global state. -/
def motorAllOff (s : SysState) : SysState :=
  { s with relayOpen := false, relayClose := false }

/-- `motor_drive_open` (lines 109-112): when energizing, the close
relay is cleared first. -/
def motorDriveOpen (b : Bool) (s : SysState) : SysState :=
  let s := if b then { s with relayClose := false } else s
  { s with relayOpen := b }

/-- `motor_drive_close` (lines 113-116). -/
def motorDriveClose (b : Bool) (s : SysState) : SysState :=
  let s := if b then { s with relayOpen := false } else s
  { s with relayClose := b }

/-- The C cast `(uint8_t)q` applied to the nonnegative float position:
truncation toward zero (for `0 ≤ q` this is `q.num / q.den`), reduced
modulo `2 ^ 8`. -/
def u8cast (q : ℚ) : ℕ := (q.num / (q.den : ℤ)).toNat % 2 ^ 8

/-- The expression `(uint8_t)(pos_f + 0.5f)` (lines 292, 307):
round-half-up of the position. -/
def roundHalfUpCast (q : ℚ) : ℕ := u8cast (q + 1/2)

/-! ### NVS calibration storage (`calib_load` / `calib_save`,
lines 258-275) -/

/-- `FULL_TRAVEL_MS_DEFAULT` (line 64). -/
def fullTravelMsDefault : ℕ := 18000

/-- `calib_load` (lines 258-267): the stored value is returned only
when present and within `[3000, 120000]`; every other outcome is an
error. -/
def calibLoad (stored : Option ℕ) : Option ℕ :=
  match stored with
  | some v => if 3000 ≤ v ∧ v ≤ 120000 then some v else none
  | none => none

/-- The `app_main` load sequence (lines 622-629): on any `calib_load`
error the compiled-in default is kept. -/
def loadedFullTravel (stored : Option ℕ) : ℕ :=
  (calibLoad stored).getD fullTravelMsDefault

/-! ### Movement executor (`move_task` / `start_move_to`,
lines 280-347) -/

/-- `MOVE_TICK_MS` (line 65). -/
def moveTickMs : ℕ := 100

/-- Per-tick increment `step = 100.0f * MOVE_TICK_MS / full_travel_ms`
(line 282). -/
def stepOf (full : ℕ) : ℚ := (100 * (moveTickMs : ℚ)) / (full : ℚ)

/-- One opening-loop iteration body (lines 290-297): advance, clamp to
100, publish the rounded position when it changed. -/
def moveStepOpen (step : ℚ) (s : SysState) : SysState :=
  let p := s.posF + step
  let p := if p > 100 then (100 : ℚ) else p
  let cp := roundHalfUpCast p
  let s := { s with posF := p, ticks := s.ticks + 1 }
  if cp ≠ s.currentPosition then
    notify (Notif.curPos cp) { s with currentPosition := cp }
  else s

/-- One closing-loop iteration body (lines 304-312). -/
def moveStepClose (step : ℚ) (s : SysState) : SysState :=
  let p := s.posF - step
  let p := if p < 0 then (0 : ℚ) else p
  let cp := roundHalfUpCast p
  let s := { s with posF := p, ticks := s.ticks + 1 }
  if cp ≠ s.currentPosition then
    notify (Notif.curPos cp) { s with currentPosition := cp }
  else s

/-- The opening loop (line 289): run while `pos_f < tgt` and the
direction is still Increasing; fuel bounds the iteration count. -/
def moveLoopOpen (step : ℚ) (tgt : ℕ) : ℕ → SysState → SysState
  | 0, s => s
  | f + 1, s =>
      if s.posF < (tgt : ℚ) ∧ s.positionState = 1 then
        moveLoopOpen step tgt f (moveStepOpen step s)
      else s

/-- The closing loop (line 304). -/
def moveLoopClose (step : ℚ) (tgt : ℕ) : ℕ → SysState → SysState
  | 0, s => s
  | f + 1, s =>
      if (tgt : ℚ) < s.posF ∧ s.positionState = 0 then
        moveLoopClose step tgt f (moveStepClose step s)
      else s

/-- Termination path of `move_task` (lines 316-330): de-energize both
outputs, report Stopped, snap the position exactly to the target,
publish it when it changed, release the task handle. -/
def moveEpilogue (tgt : ℕ) (s : SysState) : SysState :=
  let s := motorAllOff s
  let s := notify (Notif.posState 2) { s with positionState := 2 }
  let s := { s with posF := (tgt : ℚ) }
  let s :=
    if s.currentPosition ≠ tgt then
      notify (Notif.curPos tgt) { s with currentPosition := tgt }
    else s
  { s with
    pixState := if tgt = 0 ∨ tgt = 100 then PixState.idle else PixState.stopped,
    moveTask := none }

/-- The whole `move_task` body (lines 280-331) run to completion or
fuel exhaustion of the loop. -/
def moveTaskRun (fuel : ℕ) (tgt : ℕ) (s : SysState) : SysState :=
  let step := stepOf s.fullTravelMs
  let s1 :=
    if tgt > u8cast s.posF then
      let s := notify (Notif.posState 1) { s with positionState := 1 }
      let s := { s with pixState := PixState.opening }
      let s := motorDriveOpen true s
      moveLoopOpen step tgt fuel s
    else if tgt < u8cast s.posF then
      let s := notify (Notif.posState 0) { s with positionState := 0 }
      let s := { s with pixState := PixState.closing }
      let s := motorDriveClose true s
      moveLoopClose step tgt fuel s
    else s
  moveEpilogue tgt s1

/-- `start_move_to` (lines 333-347): delete any in-flight task,
de-energize both outputs, then either report Stopped immediately (when
the target equals the truncated position) or start a new task. -/
def startMoveTo (target : ℕ) (s : SysState) : SysState :=
  let s := { s with moveTask := none }
  let s := motorAllOff s
  if target = u8cast s.posF then
    let s := notify (Notif.posState 2) { s with positionState := 2 }
    { s with pixState := PixState.stopped }
  else { s with moveTask := some target }

/-- `start_move_open` (lines 350-356). -/
def startMoveOpen (s : SysState) : SysState :=
  let s :=
    if s.targetPosition ≠ 100 then
      notify (Notif.tgtPos 100) { s with targetPosition := 100 }
    else s
  startMoveTo 100 s

/-- `start_move_close` (lines 357-363). -/
def startMoveClose (s : SysState) : SysState :=
  let s :=
    if s.targetPosition ≠ 0 then
      notify (Notif.tgtPos 0) { s with targetPosition := 0 }
    else s
  startMoveTo 0 s

/-- `start_move_mid` (lines 364-370), `MID_POSITION = 50`. -/
def startMoveMid (s : SysState) : SysState :=
  let s :=
    if s.targetPosition ≠ 50 then
      notify (Notif.tgtPos 50) { s with targetPosition := 50 }
    else s
  startMoveTo 50 s

/-! ### HomeKit setters (lines 375-395, 470-480) -/

/-- `target_position_set` (lines 375-382): non-uint8 encodings return
immediately; otherwise store, start the movement, notify. -/
def targetPositionSet (v : HKValue) (s : SysState) : SysState :=
  match v with
  | HKValue.u8 t =>
      let s := { s with targetPosition := t }
      let s := startMoveTo t s
      notify (Notif.tgtPos t) s
  | _ => s

/-- `hold_position_set` (lines 384-395): non-bool encodings return
immediately; `true` de-energizes and reports Stopped; the
characteristic always auto-resets to `false`. -/
def holdPositionSet (v : HKValue) (s : SysState) : SysState :=
  match v with
  | HKValue.b bv =>
      let s :=
        if bv then
          let s := motorAllOff s
          let s := notify (Notif.posState 2) { s with positionState := 2 }
          { s with pixState := PixState.stopped }
        else s
      notify (Notif.holdPos false) { s with holdPosition := false }
  | _ => s

/-! ### Calibration state machine (lines 414-480) -/

/-- `calib_enter` (lines 414-420). -/
def calibEnter (s : SysState) : SysState :=
  if s.calibState ≠ CalibState.idle then s
  else
    { motorAllOff s with
      calibState := CalibState.armed, pixState := PixState.calibrating }

/-- `calib_cancel` (lines 422-428). -/
def calibCancel (s : SysState) : SysState :=
  if s.calibState = CalibState.idle then s
  else
    { motorAllOff s with
      calibState := CalibState.idle, pixState := PixState.idle }

/-- `calib_start_run` (lines 430-442): record the start timestamp,
enter Running, delete any movement task, report Opening, force the open
output. -/
def calibStartRun (now : ℤ) (s : SysState) : SysState :=
  if s.calibState ≠ CalibState.armed then s
  else
    let s := { s with calibStartUs := now, calibState := CalibState.running }
    let s := { s with moveTask := none }
    let s := notify (Notif.posState 1) { s with positionState := 1 }
    let s := motorDriveOpen true s
    { s with pixState := PixState.calibrating }

/-- `calib_finish_on_stop` (lines 444-467): below three seconds the
run is cancelled without persisting; otherwise the measured duration
(µs truncated to ms, cast to `uint32_t`) is stored in memory and NVS,
the position snaps to 100 and Stopped is reported. -/
def calibFinishOnStop (now : ℤ) (s : SysState) : SysState :=
  if s.calibState ≠ CalibState.running then s
  else
    let s := motorAllOff s
    let elapsed := now - s.calibStartUs
    if elapsed < 3000000 then calibCancel s
    else
      let ms := elapsed.toNat / 1000 % 2 ^ 32
      let s := { s with fullTravelMs := ms, nvsFullMs := some ms }
      let s := { s with posF := 100, currentPosition := 100, positionState := 2 }
      let s := notify (Notif.posState 2) (notify (Notif.curPos 100) s)
      { s with calibState := CalibState.idle, pixState := PixState.idle }

/-- `hk_recal_switch_set` (lines 470-480): a non-bool encoding counts
as `false`; `true` toggles arm / cancel; the switch always auto-resets
to off and notifies. -/
def hkRecalSwitchSet (v : HKValue) (s : SysState) : SysState :=
  let isOn := match v with | HKValue.b bv => bv | _ => false
  let s :=
    if isOn then
      if s.calibState = CalibState.idle then calibEnter s else calibCancel s
    else s
  notify (Notif.recal false) { s with recalibrateSwitch := false }

/-! ### Button callbacks (lines 486-520) -/

/-- Discrete gesture events delivered by the button component. -/
inductive ButtonEvent where
  | singlePress
  | doublePress
  | longPress
  | other
deriving DecidableEq

/-- `btn_open_callback` (lines 486-492). -/
def btnOpenCallback (now : ℤ) (e : ButtonEvent) (s : SysState) : SysState :=
  if e ≠ ButtonEvent.singlePress then s
  else if s.calibState = CalibState.armed then calibStartRun now s
  else if s.calibState = CalibState.running then s
  else startMoveOpen s

/-- `btn_close_callback` (lines 494-499). -/
def btnCloseCallback (e : ButtonEvent) (s : SysState) : SysState :=
  if e ≠ ButtonEvent.singlePress then s
  else if s.calibState ≠ CalibState.idle then s
  else startMoveClose s

/-- `btn_stop_callback` (lines 501-520). -/
def btnStopCallback (now : ℤ) (e : ButtonEvent) (s : SysState) : SysState :=
  match e with
  | ButtonEvent.singlePress =>
      if s.calibState = CalibState.running then calibFinishOnStop now s
      else holdPositionSet (HKValue.b true) s
  | ButtonEvent.doublePress =>
      if s.calibState ≠ CalibState.idle then s else startMoveMid s
  | ButtonEvent.longPress =>
      if s.calibState = CalibState.idle then calibEnter s else calibCancel s
  | ButtonEvent.other => s

/-! ## Lemmas and claim theorems -/

lemma allOk_append (l1 l2 : List WriteEvt) (s : RelaySt) :
    allOk s (l1 ++ l2) = true ↔
      (allOk s l1 = true ∧ allOk (List.foldl applyW s l1) l2 = true) := by
  induction l1 generalizing s with
  | nil =>
      simp only [List.nil_append, List.foldl_nil]
      constructor
      · intro h
        refine ⟨?_, h⟩
        cases l2 with
        | nil => simpa [allOk] using h
        | cons w ws =>
            simp only [allOk, Bool.and_eq_true] at h
            simpa [allOk] using h.1
      · exact fun h => h.2
  | cons w ws ih =>
      simp only [List.cons_append, allOk, Bool.and_eq_true, List.foldl_cons,
        List.append_eq]
      rw [ih]
      tauto

lemma allOk_final (l : List WriteEvt) (s : RelaySt) (h : allOk s l = true) :
    okB (List.foldl applyW s l) = true := by
  induction l generalizing s with
  | nil => simpa [allOk] using h
  | cons w ws ih =>
      simp only [allOk, Bool.and_eq_true] at h
      simpa using ih (applyW s w) h.2

lemma act_ok (a : MotorAct) (s : RelaySt) (h : okB s = true) :
    allOk s (writesOf a) = true := by
  rcases s with ⟨b1, b2⟩
  rcases a with _ | ⟨c⟩ | ⟨c⟩ <;> (try cases c) <;> cases b1 <;> cases b2 <;>
    simp_all [writesOf, allOk, applyW, okB]

lemma runs_ok (acts : List MotorAct) (s : RelaySt) (h : okB s = true) :
    allOk s (writesOfList acts) = true := by
  induction acts generalizing s with
  | nil => simpa [writesOfList, allOk] using h
  | cons a l ih =>
      rw [writesOfList, allOk_append]
      exact ⟨act_ok a s h, ih _ (allOk_final _ _ (act_ok a s h))⟩

/-- C1: at every instant of any sequence of motor-helper calls starting
from both-off, at most one of the two relay outputs is energized; and
the superseding path of `start_move_to` (lines 333-347) runs
`motor_all_off` — leaving both outputs de-energized — before the new
movement task's first energization, with the interlock holding at every
intermediate write of that combined sequence. -/
theorem C1_interlock (acts : List MotorAct) (s : RelaySt) (h : okB s = true) :
    allOk ((false : Bool), (false : Bool)) (writesOfList acts) = true ∧
    List.foldl applyW s (writesOf MotorAct.allOff) = ((false : Bool), (false : Bool)) ∧
    allOk s (writesOfList [MotorAct.allOff, MotorAct.dOpen true]) = true ∧
    allOk s (writesOfList [MotorAct.allOff, MotorAct.dClose true]) = true := by
  refine ⟨runs_ok acts _ (by decide), ?_, runs_ok _ s h, runs_ok _ s h⟩
  rcases s with ⟨b1, b2⟩
  simp [writesOf, applyW]

/-- Witness for C1: a concrete command sequence (energize open, all off,
energize close) from a state with only the close output on. -/
theorem C1_interlock_witness :
    okB ((false : Bool), (true : Bool)) = true ∧
      (allOk ((false : Bool), (false : Bool))
          (writesOfList [MotorAct.dOpen true, MotorAct.allOff, MotorAct.dClose true]) = true ∧
        List.foldl applyW ((false : Bool), (true : Bool)) (writesOf MotorAct.allOff)
            = ((false : Bool), (false : Bool)) ∧
        allOk ((false : Bool), (true : Bool))
            (writesOfList [MotorAct.allOff, MotorAct.dOpen true]) = true ∧
        allOk ((false : Bool), (true : Bool))
            (writesOfList [MotorAct.allOff, MotorAct.dClose true]) = true) :=
  ⟨by decide,
    C1_interlock [MotorAct.dOpen true, MotorAct.allOff, MotorAct.dClose true]
      ((false : Bool), (true : Bool)) (by decide)⟩


set_option maxRecDepth 20000

/-- C2 counterexample: with calibration Armed, a remote set-target (an
ordinary movement command) is NOT suppressed — `target_position_set`
has no calibration check and starts the Movement Executor. -/
theorem C2_counterexample :
    ({ initState with calibState := CalibState.armed } : SysState).calibState
        = CalibState.armed ∧
    (targetPositionSet (HKValue.u8 50)
        { initState with calibState := CalibState.armed }).moveTask = some 50 := by
  constructor
  · rfl
  · with_unfolding_all decide

/-- C2 amended: while Armed or Running, the close button single press
and the stop button double press are ignored entirely, and the open
button single press never starts the Movement Executor (in Armed it
triggers the calibration run, in Running it is ignored); but the remote
set-target is not suppressed and starts the Movement Executor. -/
theorem C2_suppression (s : SysState) (now : ℤ) (t : ℕ)
    (h : s.calibState = CalibState.armed ∨ s.calibState = CalibState.running)
    (ht : t ≠ u8cast s.posF) :
    btnCloseCallback ButtonEvent.singlePress s = s ∧
    btnStopCallback now ButtonEvent.doublePress s = s ∧
    (btnOpenCallback now ButtonEvent.singlePress s = s ∨
      (btnOpenCallback now ButtonEvent.singlePress s).moveTask = none) ∧
    (targetPositionSet (HKValue.u8 t) s).moveTask = some t := by
  have hne : s.calibState ≠ CalibState.idle := by
    rcases h with h | h <;> simp [h]
  refine ⟨?_, ?_, ?_, ?_⟩
  · simp [btnCloseCallback, hne]
  · simp [btnStopCallback, hne]
  · rcases h with h | h
    · right
      simp [btnOpenCallback, h, calibStartRun, notify, motorDriveOpen]
    · left
      simp [btnOpenCallback, h]
  · simp [targetPositionSet, startMoveTo, motorAllOff, notify, ht]

/-- Witness for C2_suppression at the Armed state with target 50. -/
theorem C2_suppression_witness :
    (({ initState with calibState := CalibState.armed } : SysState).calibState
          = CalibState.armed ∨
      ({ initState with calibState := CalibState.armed } : SysState).calibState
          = CalibState.running) ∧
    (50 : ℕ) ≠ u8cast ({ initState with calibState := CalibState.armed } : SysState).posF ∧
    (btnCloseCallback ButtonEvent.singlePress { initState with calibState := CalibState.armed }
        = { initState with calibState := CalibState.armed } ∧
      btnStopCallback 0 ButtonEvent.doublePress { initState with calibState := CalibState.armed }
        = { initState with calibState := CalibState.armed } ∧
      (btnOpenCallback 0 ButtonEvent.singlePress { initState with calibState := CalibState.armed }
          = { initState with calibState := CalibState.armed } ∨
        (btnOpenCallback 0 ButtonEvent.singlePress
            { initState with calibState := CalibState.armed }).moveTask = none) ∧
      (targetPositionSet (HKValue.u8 50)
          { initState with calibState := CalibState.armed }).moveTask = some 50) :=
  ⟨Or.inl rfl, by decide,
    C2_suppression { initState with calibState := CalibState.armed } 0 50
      (Or.inl rfl) (by decide)⟩

/-- C3: finishing a calibration run below 3000 ms updates neither the
in-memory duration nor the persisted record and returns the phase to
Idle; at or above 3000 ms both are set to the elapsed milliseconds, the
position snaps to 100, Stopped is reported, and the phase returns to
Idle. -/
theorem C3_calibration_finish (s : SysState) (now : ℤ)
    (h : s.calibState = CalibState.running) :
    (now - s.calibStartUs < 3000000 →
      (calibFinishOnStop now s).fullTravelMs = s.fullTravelMs ∧
      (calibFinishOnStop now s).nvsFullMs = s.nvsFullMs ∧
      (calibFinishOnStop now s).calibState = CalibState.idle) ∧
    (3000000 ≤ now - s.calibStartUs →
      (now - s.calibStartUs).toNat / 1000 < 2 ^ 32 →
      (calibFinishOnStop now s).fullTravelMs = (now - s.calibStartUs).toNat / 1000 ∧
      (calibFinishOnStop now s).nvsFullMs = some ((now - s.calibStartUs).toNat / 1000) ∧
      (calibFinishOnStop now s).posF = 100 ∧
      (calibFinishOnStop now s).currentPosition = 100 ∧
      (calibFinishOnStop now s).positionState = 2 ∧
      Notif.posState 2 ∈ (calibFinishOnStop now s).notifs ∧
      (calibFinishOnStop now s).calibState = CalibState.idle) := by
  constructor
  · intro hlt
    simp [calibFinishOnStop, h, motorAllOff, hlt, calibCancel]
  · intro hge hw
    rw [calibFinishOnStop]
    simp only [h, motorAllOff]
    rw [if_neg (by simp [h]), if_neg (by simpa using not_lt.mpr hge)]
    simp [notify, Nat.mod_eq_of_lt hw]
    exact lt_of_lt_of_eq hw (by norm_num)

/-- Witness for C3 at spec scenario 2: a 12000 ms run. -/
theorem C3_calibration_finish_witness :
    ({ initState with calibState := CalibState.running } : SysState).calibState
        = CalibState.running ∧
    ((12000000 - ({ initState with calibState := CalibState.running } :
          SysState).calibStartUs < 3000000 →
        (calibFinishOnStop 12000000
            { initState with calibState := CalibState.running }).fullTravelMs
          = ({ initState with calibState := CalibState.running } : SysState).fullTravelMs ∧
        (calibFinishOnStop 12000000
            { initState with calibState := CalibState.running }).nvsFullMs
          = ({ initState with calibState := CalibState.running } : SysState).nvsFullMs ∧
        (calibFinishOnStop 12000000
            { initState with calibState := CalibState.running }).calibState
          = CalibState.idle) ∧
      (3000000 ≤ 12000000 - ({ initState with calibState := CalibState.running } :
          SysState).calibStartUs →
        (12000000 - ({ initState with calibState := CalibState.running } :
            SysState).calibStartUs).toNat / 1000 < 2 ^ 32 →
        (calibFinishOnStop 12000000
            { initState with calibState := CalibState.running }).fullTravelMs
          = (12000000 - ({ initState with calibState := CalibState.running } :
              SysState).calibStartUs).toNat / 1000 ∧
        (calibFinishOnStop 12000000
            { initState with calibState := CalibState.running }).nvsFullMs
          = some ((12000000 - ({ initState with calibState := CalibState.running } :
              SysState).calibStartUs).toNat / 1000) ∧
        (calibFinishOnStop 12000000
            { initState with calibState := CalibState.running }).posF = 100 ∧
        (calibFinishOnStop 12000000
            { initState with calibState := CalibState.running }).currentPosition = 100 ∧
        (calibFinishOnStop 12000000
            { initState with calibState := CalibState.running }).positionState = 2 ∧
        Notif.posState 2 ∈ (calibFinishOnStop 12000000
            { initState with calibState := CalibState.running }).notifs ∧
        (calibFinishOnStop 12000000
            { initState with calibState := CalibState.running }).calibState
          = CalibState.idle)) :=
  ⟨rfl, C3_calibration_finish { initState with calibState := CalibState.running }
    12000000 rfl⟩

/-- C4 counterexample: a calibration run of 121000 ms (legal per the
code, since `calib_finish_on_stop` only checks the 3 s floor) leaves
the in-memory stepping duration at 121000, outside `[3000, 120000]`,
and persists that out-of-range value. -/
theorem C4_counterexample :
    (calibFinishOnStop 121000000
        { initState with calibState := CalibState.running }).fullTravelMs = 121000 ∧
    ¬ (calibFinishOnStop 121000000
        { initState with calibState := CalibState.running }).fullTravelMs ≤ 120000 ∧
    (calibFinishOnStop 121000000
        { initState with calibState := CalibState.running }).nvsFullMs
      = some 121000 :=
  ⟨by with_unfolding_all decide, by with_unfolding_all decide, by with_unfolding_all rfl⟩

/-- C4 amended: the load path always yields a duration within
`[3000, 120000]` (out-of-range or absent persisted values fall back to
the default 18000), and a calibration update guarantees the 3000 ms
lower bound — but not the 120000 ms upper bound. -/
theorem C4_duration_range (stored : Option ℕ) (s : SysState) (now : ℤ)
    (h : s.calibState = CalibState.running)
    (h3 : 3000000 ≤ now - s.calibStartUs)
    (hw : (now - s.calibStartUs).toNat / 1000 < 2 ^ 32) :
    3000 ≤ loadedFullTravel stored ∧ loadedFullTravel stored ≤ 120000 ∧
    3000 ≤ (calibFinishOnStop now s).fullTravelMs := by
  have hload : 3000 ≤ loadedFullTravel stored ∧ loadedFullTravel stored ≤ 120000 := by
    rcases stored with _ | v
    · constructor <;> norm_num [loadedFullTravel, calibLoad, fullTravelMsDefault]
    · rw [loadedFullTravel, calibLoad]
      split
      · next hin => simpa using hin
      · constructor <;> norm_num [fullTravelMsDefault]
  refine ⟨hload.1, hload.2, ?_⟩
  rw [calibFinishOnStop]
  rw [if_neg (by simp [h]), if_neg (by simpa [motorAllOff] using not_lt.mpr h3)]
  simp only [motorAllOff, notify]
  have htn : (3000000 : ℕ) ≤ (now - s.calibStartUs).toNat := by
    have := Int.toNat_le_toNat h3
    simpa using this
  have hw2 : (now - s.calibStartUs).toNat / 1000 < 4294967296 :=
    lt_of_lt_of_eq hw (by norm_num)
  norm_num
  omega

/-- Witness for C4_duration_range: a stored out-of-range record and a
12000 ms run. -/
theorem C4_duration_range_witness :
    ({ initState with calibState := CalibState.running } : SysState).calibState
        = CalibState.running ∧
    3000000 ≤ 12000000 - ({ initState with calibState := CalibState.running } :
        SysState).calibStartUs ∧
    (12000000 - ({ initState with calibState := CalibState.running } :
        SysState).calibStartUs).toNat / 1000 < 2 ^ 32 ∧
    (3000 ≤ loadedFullTravel (some 500000) ∧
      loadedFullTravel (some 500000) ≤ 120000 ∧
      3000 ≤ (calibFinishOnStop 12000000
          { initState with calibState := CalibState.running }).fullTravelMs) :=
  ⟨rfl, by decide, by decide,
    C4_duration_range (some 500000) { initState with calibState := CalibState.running }
      12000000 rfl (by decide) (by decide)⟩

/-- C5 counterexample: after one opening tick with a 16000 ms travel
time (step `0.625`, exactly representable in binary32), the position is
`0.625`; its round-half-up integer value is `1`, yet issuing target `1`
starts a movement task (the code compares against the truncated
position `0`) and makes no Stopped report. -/
theorem C5_counterexample :
    (moveStepOpen (stepOf 16000)
        { initState with fullTravelMs := 16000, positionState := 1 }).posF = 5/8 ∧
    roundHalfUpCast ((5 : ℚ)/8) = 1 ∧
    (startMoveTo 1
        { initState with
            posF := 5/8, fullTravelMs := 16000, positionState := 1,
            moveTask := some 100 }).moveTask = some 1 ∧
    (startMoveTo 1
        { initState with
            posF := 5/8, fullTravelMs := 16000, positionState := 1,
            moveTask := some 100 }).notifs = [] := by
  refine ⟨?_, ?_, ?_, ?_⟩ <;> with_unfolding_all decide

/-- C5 amended: issuing a target equal to the current truncated
(`(uint8_t)pos_f`) integer position starts no movement, leaves both
outputs de-energized and immediately reports Stopped. -/
theorem C5_noop (s : SysState) (t : ℕ) (h : t = u8cast s.posF) :
    (startMoveTo t s).moveTask = none ∧
    (startMoveTo t s).relayOpen = false ∧
    (startMoveTo t s).relayClose = false ∧
    (startMoveTo t s).positionState = 2 ∧
    (startMoveTo t s).notifs = s.notifs ++ [Notif.posState 2] := by
  simp [startMoveTo, motorAllOff, notify, h]

/-- Witness for C5_noop: target 0 at the initial (closed) position. -/
theorem C5_noop_witness :
    (0 : ℕ) = u8cast initState.posF ∧
    ((startMoveTo 0 initState).moveTask = none ∧
      (startMoveTo 0 initState).relayOpen = false ∧
      (startMoveTo 0 initState).relayClose = false ∧
      (startMoveTo 0 initState).positionState = 2 ∧
      (startMoveTo 0 initState).notifs = initState.notifs ++ [Notif.posState 2]) :=
  ⟨by decide, C5_noop initState 0 (by decide)⟩

/-- C6: the per-tick increment is `100.0 * MOVE_TICK_MS /
full_travel_ms` percent (so exactly `1.0` for a 10000 ms travel time),
each un-clamped opening tick advances the position by exactly `step`,
and the concrete scenario — start at 0, target 100, 10000 ms travel —
reaches position 100 with Stopped reported after exactly 100 ticks. -/
theorem C6_step_scenario :
    (∀ full : ℕ, stepOf full = 100 * 100 / (full : ℚ)) ∧
    stepOf 10000 = 1 ∧
    (∀ step : ℚ, ∀ s : SysState, s.posF + step ≤ 100 →
      (moveStepOpen step s).posF = s.posF + step) ∧
    (moveTaskRun 200 100 { initState with fullTravelMs := 10000 }).posF = 100 ∧
    (moveTaskRun 200 100 { initState with fullTravelMs := 10000 }).positionState = 2 ∧
    (moveTaskRun 200 100 { initState with fullTravelMs := 10000 }).ticks = 100 := by
  refine ⟨?_, ?_, ?_, ?_, ?_, ?_⟩
  · intro full
    norm_num [stepOf, moveTickMs]
  · with_unfolding_all decide
  · intro step s hle
    rw [moveStepOpen]
    simp only [if_neg (not_lt.mpr hle)]
    split <;> simp [notify]
  · with_unfolding_all decide
  · with_unfolding_all decide
  · with_unfolding_all decide

lemma initStep10000_le :
    ({ initState with fullTravelMs := 10000 } : SysState).posF + stepOf 10000 ≤ 100 := by
  norm_num [initState, stepOf, moveTickMs]

/-- Witness for C6_step_scenario: one tick of the 10000 ms scenario
advances the position from 0 by exactly the step. -/
theorem C6_step_scenario_witness :
    ({ initState with fullTravelMs := 10000 } : SysState).posF + stepOf 10000 ≤ 100 ∧
    (moveStepOpen (stepOf 10000) { initState with fullTravelMs := 10000 }).posF
      = ({ initState with fullTravelMs := 10000 } : SysState).posF + stepOf 10000 :=
  ⟨initStep10000_le,
    C6_step_scenario.2.2.1 (stepOf 10000) { initState with fullTravelMs := 10000 }
      initStep10000_le⟩

/-- C7: both momentary request characteristics start out false, and
after any processing of a set request — whatever action it triggered —
the reported value is false: the hold setter never stores anything but
false (a wrong-format request leaves the already-false value in place),
and the recalibrate setter unconditionally self-resets. -/
theorem C7_momentary (s : SysState) (v w : HKValue) (h : s.holdPosition = false) :
    initState.holdPosition = false ∧
    initState.recalibrateSwitch = false ∧
    (holdPositionSet v s).holdPosition = false ∧
    (hkRecalSwitchSet w s).recalibrateSwitch = false := by
  refine ⟨rfl, rfl, ?_, ?_⟩
  · rcases v with bv | n | _
    · cases bv <;> simp [holdPositionSet, notify, motorAllOff]
    · simpa [holdPositionSet] using h
    · simpa [holdPositionSet] using h
  · simp [hkRecalSwitchSet, notify]

/-- Witness for C7: a true hold request and a true recalibrate request
at the initial state. -/
theorem C7_momentary_witness :
    initState.holdPosition = false ∧
    (initState.holdPosition = false ∧
      initState.recalibrateSwitch = false ∧
      (holdPositionSet (HKValue.b true) initState).holdPosition = false ∧
      (hkRecalSwitchSet (HKValue.b true) initState).recalibrateSwitch = false) :=
  ⟨rfl, C7_momentary initState (HKValue.b true) (HKValue.b true) rfl⟩

/-- C8 counterexample: a wrong-format (uint8) write to the recalibrate
switch is not silently ignored — the setter still emits a notification
of the characteristic. -/
theorem C8_counterexample :
    (hkRecalSwitchSet (HKValue.u8 7) initState).notifs = [Notif.recal false] ∧
    (hkRecalSwitchSet (HKValue.u8 7) initState).notifs ≠ initState.notifs := by
  constructor <;> decide

/-- C8 amended: wrong-format writes to `target_position` and
`hold_position` are ignored entirely (no state change, no
notification); a wrong-format write to the recalibrate switch changes
no calibration, motor or position state, but still performs the
momentary self-reset to false and emits its notification. -/
theorem C8_wrong_format (s : SysState) (v w : HKValue)
    (hv : ∀ t, v ≠ HKValue.u8 t) (hw : ∀ b, w ≠ HKValue.b b) :
    targetPositionSet v s = s ∧
    holdPositionSet w s = s ∧
    (hkRecalSwitchSet w s).calibState = s.calibState ∧
    (hkRecalSwitchSet w s).relayOpen = s.relayOpen ∧
    (hkRecalSwitchSet w s).relayClose = s.relayClose ∧
    (hkRecalSwitchSet w s).posF = s.posF ∧
    (hkRecalSwitchSet w s).positionState = s.positionState ∧
    (hkRecalSwitchSet w s).moveTask = s.moveTask ∧
    (hkRecalSwitchSet w s).recalibrateSwitch = false ∧
    (hkRecalSwitchSet w s).notifs = s.notifs ++ [Notif.recal false] := by
  have hv2 : targetPositionSet v s = s := by
    rcases v with bv | t | _
    · rfl
    · exact absurd rfl (hv t)
    · rfl
  have hw2 : holdPositionSet w s = s := by
    rcases w with bv | t | _
    · exact absurd rfl (hw bv)
    · rfl
    · rfl
  refine ⟨hv2, hw2, ?_⟩
  rcases w with bv | t | _
  · exact absurd rfl (hw bv)
  · rw [hkRecalSwitchSet]
    simp [notify]
    exact fun bv hb => HKValue.noConfusion hb
  · rw [hkRecalSwitchSet]
    simp [notify]
    exact fun bv hb => HKValue.noConfusion hb

/-- Witness for C8_wrong_format: a bool write to the target and a uint8
write to hold / recalibrate. -/
theorem C8_wrong_format_witness :
    (∀ t, HKValue.b true ≠ HKValue.u8 t) ∧
    (∀ b, HKValue.u8 7 ≠ HKValue.b b) ∧
    (targetPositionSet (HKValue.b true) initState = initState ∧
      holdPositionSet (HKValue.u8 7) initState = initState ∧
      (hkRecalSwitchSet (HKValue.u8 7) initState).calibState = initState.calibState ∧
      (hkRecalSwitchSet (HKValue.u8 7) initState).relayOpen = initState.relayOpen ∧
      (hkRecalSwitchSet (HKValue.u8 7) initState).relayClose = initState.relayClose ∧
      (hkRecalSwitchSet (HKValue.u8 7) initState).posF = initState.posF ∧
      (hkRecalSwitchSet (HKValue.u8 7) initState).positionState = initState.positionState ∧
      (hkRecalSwitchSet (HKValue.u8 7) initState).moveTask = initState.moveTask ∧
      (hkRecalSwitchSet (HKValue.u8 7) initState).recalibrateSwitch = false ∧
      (hkRecalSwitchSet (HKValue.u8 7) initState).notifs
        = initState.notifs ++ [Notif.recal false]) :=
  ⟨fun _t h => HKValue.noConfusion h, fun _b h => HKValue.noConfusion h,
    C8_wrong_format initState (HKValue.b true) (HKValue.u8 7)
      (fun _t h => HKValue.noConfusion h) (fun _b h => HKValue.noConfusion h)⟩

/-- C9: from Armed, `calib_start_run` records the start timestamp,
enters Running, cancels any existing movement task, forces the open
output (close off), reports direction Opening, and leaves the
externally visible target position unchanged. -/
theorem C9_armed_to_running (s : SysState) (now : ℤ)
    (h : s.calibState = CalibState.armed) :
    (calibStartRun now s).calibStartUs = now ∧
    (calibStartRun now s).calibState = CalibState.running ∧
    (calibStartRun now s).moveTask = none ∧
    (calibStartRun now s).relayOpen = true ∧
    (calibStartRun now s).relayClose = false ∧
    (calibStartRun now s).positionState = 1 ∧
    Notif.posState 1 ∈ (calibStartRun now s).notifs ∧
    (calibStartRun now s).targetPosition = s.targetPosition := by
  rw [calibStartRun]
  simp [h, notify, motorDriveOpen]

/-- Witness for C9 at the Armed initial state. -/
theorem C9_armed_to_running_witness :
    ({ initState with calibState := CalibState.armed } : SysState).calibState
        = CalibState.armed ∧
    ((calibStartRun 5 { initState with calibState := CalibState.armed }).calibStartUs = 5 ∧
      (calibStartRun 5 { initState with calibState := CalibState.armed }).calibState
        = CalibState.running ∧
      (calibStartRun 5 { initState with calibState := CalibState.armed }).moveTask = none ∧
      (calibStartRun 5 { initState with calibState := CalibState.armed }).relayOpen = true ∧
      (calibStartRun 5 { initState with calibState := CalibState.armed }).relayClose = false ∧
      (calibStartRun 5 { initState with calibState := CalibState.armed }).positionState = 1 ∧
      Notif.posState 1 ∈ (calibStartRun 5
          { initState with calibState := CalibState.armed }).notifs ∧
      (calibStartRun 5 { initState with calibState := CalibState.armed }).targetPosition
        = ({ initState with calibState := CalibState.armed } : SysState).targetPosition) :=
  ⟨rfl, C9_armed_to_running { initState with calibState := CalibState.armed } 5 rfl⟩

/-- C10: a hold request sets the direction to Stopped; once the
direction is no longer the running one, both movement loops exit at the
next tick boundary without advancing, and the termination path of
`move_task` snaps the internal position exactly to the original target
and publishes that target as the current position — so after a
mid-travel hold the reported position is the superseded target, not the
point where motion stopped. -/
theorem C10_snap_to_target (s s2 : SysState) (step : ℚ) (tgt fuel : ℕ)
    (h : s.positionState = 2) :
    (holdPositionSet (HKValue.b true) s2).positionState = 2 ∧
    moveLoopOpen step tgt fuel s = s ∧
    moveLoopClose step tgt fuel s = s ∧
    (moveEpilogue tgt s).posF = (tgt : ℚ) ∧
    (moveEpilogue tgt s).currentPosition = tgt := by
  refine ⟨?_, ?_, ?_, ?_, ?_⟩
  · simp [holdPositionSet, notify, motorAllOff]
  · cases fuel <;> simp [moveLoopOpen, h]
  · cases fuel <;> simp [moveLoopClose, h]
  · rw [moveEpilogue]
    simp only [motorAllOff, notify]
    split <;> simp
  · rw [moveEpilogue]
    simp only [motorAllOff, notify]
    split <;> simp_all

/-- Witness for C10: a hold at position 37.5 during a move toward 100
ends with the reported position 100. -/
theorem C10_snap_to_target_witness :
    ({ initState with posF := 75/2, positionState := 2, currentPosition := 38 } :
        SysState).positionState = 2 ∧
    ((holdPositionSet (HKValue.b true) initState).positionState = 2 ∧
      moveLoopOpen 1 100 5
          { initState with posF := 75/2, positionState := 2, currentPosition := 38 }
        = { initState with posF := 75/2, positionState := 2, currentPosition := 38 } ∧
      moveLoopClose 1 100 5
          { initState with posF := 75/2, positionState := 2, currentPosition := 38 }
        = { initState with posF := 75/2, positionState := 2, currentPosition := 38 } ∧
      (moveEpilogue 100
          { initState with posF := 75/2, positionState := 2, currentPosition := 38 }).posF
        = ((100 : ℕ) : ℚ) ∧
      (moveEpilogue 100
          { initState with posF := 75/2, positionState := 2, currentPosition := 38 }).currentPosition
        = 100) :=
  ⟨rfl, C10_snap_to_target
    { initState with posF := 75/2, positionState := 2, currentPosition := 38 }
    initState 1 100 5 rfl⟩

end Sunshade
